import Mathlib

/-!
Shallow embedding of the two scripts of the `azure_ml_cheatsheet` repository:
`src/06_pipeline.py` (pipeline build / submit / publish / schedule) and
`src/11_privacy.py` (differential-privacy queries).  Each definition mirrors
the concrete parameter marshalling the script performs; the theorems settle
the specification claims about those scripts.
-/

namespace Pipeline06

/-- An argument bound to a pipeline step, as marshalled in the `arguments`
list of `PythonScriptStep` in `src/06_pipeline.py`:
a registered dataset passed by `as_named_input`, an `OutputFileDatasetConfig`
passed as an output slot, a slot consumed via `.as_input()`, or a plain
literal parameter. -/
inductive StepArg where
  | datasetInput (flag : String) (name : String)
  | outputConfig (flag : String) (slot : String)
  | slotInput (flag : String) (slot : String)
  | param (flag : String) (value : String)
  deriving DecidableEq, Repr

/-- A `PythonScriptStep` as constructed in `src/06_pipeline.py`
(lines 65-76 and 79-90). -/
structure PythonScriptStep where
  name : String
  source_directory : String
  script_name : String
  arguments : List StepArg
  compute_target : String
  allow_reuse : Bool
  deriving DecidableEq, Repr

/-- The data slots a step consumes from other steps (`.as_input()` references). -/
def PythonScriptStep.inputSlots (s : PythonScriptStep) : List String :=
  s.arguments.filterMap fun a =>
    match a with
    | .slotInput _ slot => some slot
    | _ => none

/-- The data slots a step produces (`OutputFileDatasetConfig` references). -/
def PythonScriptStep.outputSlots (s : PythonScriptStep) : List String :=
  s.arguments.filterMap fun a =>
    match a with
    | .outputConfig _ slot => some slot
    | _ => none

/-- Line 24: the compute target name. -/
def cluster_name : String := "ml-sdk-cc"

/-- Line 59: `OutputFileDatasetConfig("prepped_data")`, the slot passed from
step 1 to step 2. -/
def prepped_data : String := "prepped_data"

/-- Line 62: the pipeline steps folder. -/
def experiment_folder : String := "./experiments"

/-- Lines 65-76: step 1, the data-prep script step. -/
def prep_step : PythonScriptStep :=
  { name := "Prepare Data"
    source_directory := experiment_folder
    script_name := "06_data_prep.py"
    arguments :=
      [ .datasetInput "--input-data" "raw_data"
      , .outputConfig "--prepped-data" prepped_data ]
    compute_target := cluster_name
    allow_reuse := true }

/-- Lines 79-90: step 2, the training script step. -/
def train_step : PythonScriptStep :=
  { name := "Train and Register Model"
    source_directory := experiment_folder
    script_name := "06_train_model.py"
    arguments :=
      [ .slotInput "--training-data" prepped_data
      , .param "--regularization" "0.1" ]
    compute_target := cluster_name
    allow_reuse := true }

/-- Line 95: `pipeline_steps = [prep_step, train_step]`. -/
def pipeline_steps : List PythonScriptStep := [prep_step, train_step]

/-- Every input slot of every step is produced by a strictly earlier step:
walking the list left to right with the set of already-produced slots,
the input slots of each step must all be already produced. -/
def slotsOk : List String → List PythonScriptStep → Bool
  | _, [] => true
  | produced, s :: rest =>
      (s.inputSlots.all fun slot => produced.contains slot) &&
      slotsOk (produced ++ s.outputSlots) rest

/-- Step at index `i` depends on step at index `j` when some input slot of
`i` is an output slot of `j`. -/
def dependsOn (steps : List PythonScriptStep) (i j : Fin steps.length) : Bool :=
  (steps.get i).inputSlots.any fun slot => (steps.get j).outputSlots.contains slot

/-- Line 101: the experiment name used for submission, the REST payload and
the latest-run lookup. -/
def experiment_name : String := "ml-sdk-pipeline"

/-- The submission record marshalled by `experiment.submit` on line 108:
the pipeline and the `regenerate_outputs` keyword. -/
structure Submission where
  steps : List PythonScriptStep
  experiment : String
  regenerate_outputs : Bool
  deriving DecidableEq, Repr

/-- Line 108: `experiment.submit(pipeline, regenerate_outputs=True)`. -/
def pipeline_run_submission : Submission :=
  { steps := pipeline_steps
    experiment := experiment_name
    regenerate_outputs := true }

/-- Per the interface of the submission client, a submission permits the platform
to reuse a prior successful step execution exactly when it does not force
regeneration of all step outputs: `regenerate_outputs=True` disallows reuse
for the submitted run. -/
def Submission.permitsReuse (s : Submission) : Bool :=
  !s.regenerate_outputs

/-- The property claimed of the submission of the script: every step is built
reuse-eligible and the submission permits platform reuse of prior
step executions. -/
def submissionReuseClaim : Prop :=
  (pipeline_run_submission.steps.all fun s => s.allow_reuse) = true ∧
  pipeline_run_submission.permitsReuse = true

instance : Decidable submissionReuseClaim := by
  unfold submissionReuseClaim; infer_instance

end Pipeline06

namespace Pipeline06

/-- The recurrence descriptor marshalled by `ScheduleRecurrence` on
lines 211-216 of `src/06_pipeline.py`. -/
structure ScheduleRecurrence where
  frequency : String
  interval : Int
  week_days : Option (List String)
  time_of_day : Option String
  deriving DecidableEq, Repr

/-- Lines 211-216: the weekly recurrence built by the script. -/
def recurrence : ScheduleRecurrence :=
  { frequency := "Week"
    interval := 1
    week_days := some ["Monday"]
    time_of_day := some "00:00" }

/-- The frequency enumeration of the recurrence-descriptor interface. -/
def frequencyEnum : List String := ["Minute", "Hour", "Day", "Week", "Month"]

/-- The weekday names admissible in `week_days`. -/
def weekdayNames : List String :=
  ["Monday", "Tuesday", "Wednesday", "Thursday", "Friday", "Saturday", "Sunday"]

/-- A string is in `HH:MM` form: five characters `h1 h2 ':' m1 m2`, all four
outer ones digits, reading a valid hour (< 24) and minute (< 60). -/
def isHHMM (s : String) : Bool :=
  match s.data with
  | [h1, h2, c, m1, m2] =>
      h1.isDigit && h2.isDigit && c == ':' && m1.isDigit && m2.isDigit &&
      ((h1.toNat - 48) * 10 + (h2.toNat - 48) < 24) &&
      ((m1.toNat - 48) * 10 + (m2.toNat - 48) < 60)
  | _ => false

/-- Well-formedness of a recurrence descriptor per the declared interface:
frequency drawn from the enumeration, positive interval, weekday names from
the weekday set when present, `HH:MM` time of day when present. -/
def ScheduleRecurrence.wellFormed (r : ScheduleRecurrence) : Bool :=
  frequencyEnum.contains r.frequency &&
  (0 < r.interval) &&
  (match r.week_days with
   | none => true
   | some ds => ds.all fun d => weekdayNames.contains d) &&
  (match r.time_of_day with
   | none => true
   | some t => isHHMM t)

/-- Parameters marshalled by the `Schedule.create` call, lines 217-223. -/
structure ScheduleCreate where
  name : String
  description : String
  experiment_name : String
  recurrence : ScheduleRecurrence
  deriving DecidableEq, Repr

/-- Lines 217-223: `Schedule.create(..., experiment_name="mslearn-diabetes-pipeline", ...)`. -/
def weekly_schedule : ScheduleCreate :=
  { name := "weekly-diabetes-training"
    description := "Based on time"
    experiment_name := "mslearn-diabetes-pipeline"
    recurrence := recurrence }

end Pipeline06

/-- C4: in the pipeline handed to the submission client, `Prepare Data`
(producer of `prepped_data`) appears at position 0, before its consumer
`Train and Register Model` at position 1; every input slot is produced by an
earlier step (`slotsOk`), and every dependency between step indices points
strictly backwards, so the dependency graph is acyclic. -/
theorem C4_step_order_preserves_dependencies :
    Pipeline06.slotsOk [] Pipeline06.pipeline_steps = true ∧
    Pipeline06.pipeline_steps.get? 0 = some Pipeline06.prep_step ∧
    Pipeline06.pipeline_steps.get? 1 = some Pipeline06.train_step ∧
    Pipeline06.prepped_data ∈ Pipeline06.prep_step.outputSlots ∧
    Pipeline06.prepped_data ∈ Pipeline06.train_step.inputSlots ∧
    (∀ i j : Fin Pipeline06.pipeline_steps.length,
      Pipeline06.dependsOn Pipeline06.pipeline_steps i j = true → (j : ℕ) < (i : ℕ)) := by
  refine ⟨by decide, by decide, by decide, by decide, by decide, ?_⟩
  decide

namespace Pipeline06

/-- A run status on the remote platform:
queued, running, succeeded, failed or canceled. -/
inductive RunStatus where
  | queued | running | succeeded | failed | canceled
  deriving DecidableEq, Repr

/-- A status is terminal when the run has finished. -/
def RunStatus.isTerminal : RunStatus → Bool
  | .queued => false
  | .running => false
  | _ => true

/-- Parameters marshalled to a `wait_for_completion` call: the script passes
only `show_output=True` and no local timeout or maximum duration. -/
structure WaitCall where
  show_output : Bool
  timeout : Option Nat
  deriving DecidableEq, Repr

/-- Line 114: `pipeline_run.wait_for_completion(show_output=True)`. -/
def wait1 : WaitCall := { show_output := true, timeout := none }

/-- Line 207: `published_pipeline_run.wait_for_completion(show_output=True)`. -/
def wait2 : WaitCall := { show_output := true, timeout := none }

/-- The observable behaviour of an unbounded wait against a stream of polled
statuses: the index of the first poll that observes a terminal status within
the first `n` polls, `none` when no poll up to `n` has seen one — the wait
call returns only when some poll observes a terminal status. -/
def pollUpTo (status : Nat → RunStatus) (n : Nat) : Option Nat :=
  (List.range n).find? fun k => (status k).isTerminal

/-- A status stream that never leaves the running state. -/
def alwaysRunning : Nat → RunStatus := fun _ => .running

/-- Modelled from the spec: the authentication header produced by the
interactive login of the platform SDK (code not in this repository),
`Authorization: Bearer <token>`. -/
def auth_header (token : String) : List (String × String) :=
  [("Authorization", "Bearer " ++ token)]

/-- An HTTP invocation as marshalled by `requests.post` on lines 198-202:
method, target URI, headers, and the JSON body as a field list. -/
structure RestInvocation where
  method : String
  uri : String
  headers : List (String × String)
  jsonBody : List (String × String)
  deriving DecidableEq, Repr

/-- Lines 198-202: the POST to the published endpoint, with the
authentication header and the JSON body `{"ExperimentName": experiment_name}`
as its sole field. -/
def rest_trigger (endpoint token : String) : RestInvocation :=
  { method := "POST"
    uri := endpoint
    headers := auth_header token
    jsonBody := [("ExperimentName", experiment_name)] }

/-- Line 203: `run_id = response.json()["Id"]` — the `Id` field of the JSON
response is read as the identity of the new run. -/
def run_id (responseJson : List (String × String)) : Option String :=
  (responseJson.find? fun kv => kv.1 == "Id").map fun kv => kv.2

/-- The remote-facing operations of `src/06_pipeline.py` in program order. -/
inductive Event where
  | submitRun (experiment : String)
  | waitForCompletion (call : WaitCall)
  | publishPipeline (name : String)
  | restPost (experiment : String)
  | mkRunHandle (experiment : String)
  | scheduleCreate (sc : ScheduleCreate)
  | latestRunLookup (experiment : String)
  deriving DecidableEq, Repr

/-- The ordered trace of remote-facing operations performed by
`src/06_pipeline.py`: submit (line 108), wait (114), publish (184-185),
REST trigger (198-202), run handle construction (206), wait (207),
schedule creation (217-223), latest-run lookup (231-232). -/
def scriptEvents : List Event :=
  [ .submitRun experiment_name
  , .waitForCompletion wait1
  , .publishPipeline "diabetes-training-pipeline"
  , .restPost experiment_name
  , .mkRunHandle experiment_name
  , .waitForCompletion wait2
  , .scheduleCreate weekly_schedule
  , .latestRunLookup experiment_name ]

/-- The events of the script that precede the latest-run lookup
(everything before the final element of `scriptEvents`). -/
def eventsBeforeLookup : List Event := scriptEvents.take 7

/-- The run list of the named experiment after a trace of operations, most
recent first: a direct submission and a REST trigger each create one run in
their experiment synchronously; publishing, waiting, scheduling and lookups
create none at script time. Runs are numbered in creation order. -/
def runsAfter (evs : List Event) (x : String) : List Nat :=
  evs.foldl
    (fun acc e =>
      match e with
      | .submitRun e2 => if e2 = x then acc.length :: acc else acc
      | .restPost e2 => if e2 = x then acc.length :: acc else acc
      | _ => acc)
    []

end Pipeline06

namespace Privacy11

/-- A differentially private query as marshalled to the noise engine by
`src/11_privacy.py`: the statistic, the privacy budget epsilon, the declared
clamping bounds per column (lower, upper), and the declared row counts per
column. The literal decimal parameters of the script are represented
exactly as rationals. -/
structure DPQuery where
  stat : String
  epsilon : ℚ
  bounds : List (ℚ × ℚ)
  declaredRows : List Nat
  deriving DecidableEq, Repr

/-- Line 40: `samples = len(data)`; the dataset length is the parameter
`dataLen` of the model. -/
def samples (dataLen : Nat) : Nat := dataLen

/-- Lines 47-53: `sn.dp_mean` over Age with epsilon 0.5, clamping bounds
[0, 120] (`age_range`, line 39) and `data_rows = samples`. -/
def dp_mean_query (dataLen : Nat) : DPQuery :=
  { stat := "dp_mean Age"
    epsilon := 1/2
    bounds := [(0, 120)]
    declaredRows := [samples dataLen] }

/-- Lines 69-75: `sn.dp_histogram` over Age converted by
`sn.to_int(lower=0, upper=120)`, epsilon 0.5; no row count is declared. -/
def dp_histogram_query : DPQuery :=
  { stat := "dp_histogram Age"
    epsilon := 1/2
    bounds := [(0, 120)]
    declaredRows := [] }

/-- Lines 102-111: `sn.dp_covariance` of Age and DiastolicBloodPressure with
epsilon 1.0, left bounds [0, 120] and `left_rows = 10000`, right bounds
[0, 150] and `right_rows = 10000`. -/
def dp_covariance_query : DPQuery :=
  { stat := "dp_covariance Age DiastolicBloodPressure"
    epsilon := 1
    bounds := [(0, 120), (0, 150)]
    declaredRows := [10000, 10000] }

/-- A local action of the privacy section: either a local validation of the
query parameters (which would raise a PrivacyParameterError on failure), or
the release of a query to the noise engine. -/
inductive PrivAction where
  | validateParams (q : DPQuery)
  | engineCall (q : DPQuery)
  deriving DecidableEq, Repr

/-- The privacy section of `src/11_privacy.py` as its ordered list of local
actions (lines 42-55, 68-77, 101-112): three engine calls and no local
validation action anywhere. -/
def privActions (dataLen : Nat) : List PrivAction :=
  [ .engineCall (dp_mean_query dataLen)
  , .engineCall dp_histogram_query
  , .engineCall dp_covariance_query ]

/-- Every engine call in the action list is preceded by a local validation
of the same query: walking left to right with the already-seen actions. -/
def validatedBefore : List PrivAction → List PrivAction → Bool
  | _, [] => true
  | seen, .engineCall q :: rest =>
      seen.contains (.validateParams q) &&
      validatedBefore (seen ++ [.engineCall q]) rest
  | seen, a :: rest => validatedBefore (seen ++ [a]) rest

/-- The parameters of a query are valid: positive epsilon and no inverted
clamping bounds. -/
def DPQuery.paramsValid (q : DPQuery) : Bool :=
  decide (0 < q.epsilon) && q.bounds.all fun b => decide (b.1 ≤ b.2)

/-- An action never hands invalid parameters to the engine: engine calls
carry valid parameters, validation actions are local. -/
def PrivAction.engineParamsValid : PrivAction → Bool
  | .engineCall q => q.paramsValid
  | .validateParams _ => true

/-- A dataset access performed by `src/11_privacy.py`: fetching a dataset
into a handle, a noised statistic over a handle, its ground-truth
counterpart over a handle, or a mutation of a handle. -/
inductive DataEvent where
  | fetchDataset (name : String) (handle : Nat)
  | noisedStat (stat : String) (handle : Nat)
  | trueStat (stat : String) (handle : Nat)
  | mutate (handle : Nat)
  deriving DecidableEq, Repr

/-- Whether a data event is a dataset fetch. -/
def DataEvent.isFetch : DataEvent → Bool
  | .fetchDataset _ _ => true
  | _ => false

/-- Whether a data event mutates a handle. -/
def DataEvent.isMutate : DataEvent → Bool
  | .mutate _ => true
  | _ => false

/-- The handle a data event reads or writes. -/
def DataEvent.handleOf : DataEvent → Nat
  | .fetchDataset _ h => h
  | .noisedStat _ h => h
  | .trueStat _ h => h
  | .mutate h => h

/-- The ordered trace of dataset accesses in `src/11_privacy.py`: one fetch
of the "diabetes dataset" into handle 0 (line 14), then for each statistic
the noised computation and its ground-truth counterpart, all reading handle
0 (mean: lines 42-55 and 65; histogram: lines 68-77 and 80; covariance:
lines 101-113 and 114); the script never refetches or mutates the data. -/
def dataEvents : List DataEvent :=
  [ .fetchDataset "diabetes dataset" 0
  , .noisedStat "mean Age" 0
  , .trueStat "mean Age" 0
  , .noisedStat "histogram Age" 0
  , .trueStat "histogram Age" 0
  , .noisedStat "covariance Age DiastolicBloodPressure" 0
  , .trueStat "covariance Age DiastolicBloodPressure" 0 ]

end Privacy11

/-- C1 counterexample: the claim that the submission of the script permits
platform reuse of prior step executions is false — line 108 submits with
`regenerate_outputs=True`, which forces regeneration of all step outputs and
disallows reuse for the run, so the steps are re-executed on every
submission, the second included. -/
theorem C1_counterexample : ¬ Pipeline06.submissionReuseClaim := by
  decide

/-- C1 (amended): both steps are built with `allow_reuse=True`, but the
submission performed by the script passes `regenerate_outputs=True`, so the
submission does not permit platform reuse of a prior successful step
execution. -/
theorem C1_reuse_disallowed_by_submission :
    (Pipeline06.pipeline_run_submission.steps.all fun s => s.allow_reuse) = true ∧
    Pipeline06.pipeline_run_submission.regenerate_outputs = true ∧
    Pipeline06.pipeline_run_submission.permitsReuse = false := by
  decide

/-- C2 counterexample: the privacy script performs no local validation
before calling the noise engine — at dataset length 768 (as at every
length), no engine call in the action list is preceded by a validation
action. -/
theorem C2_counterexample :
    Privacy11.validatedBefore [] (Privacy11.privActions 768) = false := by
  decide

/-- C2 (amended): the privacy script performs no local validation and never
raises a PrivacyParameterError, but every query it releases to the noise
engine carries a positive epsilon and non-inverted clamping bounds, so the
engine is never invoked with invalid parameters. -/
theorem C2_engine_calls_valid_without_validation :
    ∀ dataLen : Nat,
      ((Privacy11.privActions dataLen).all Privacy11.PrivAction.engineParamsValid) = true ∧
      Privacy11.validatedBefore [] (Privacy11.privActions dataLen) = false := by
  intro n
  refine ⟨?_, rfl⟩
  simp only [Privacy11.privActions, Privacy11.PrivAction.engineParamsValid,
    Privacy11.DPQuery.paramsValid, Privacy11.dp_mean_query,
    Privacy11.dp_histogram_query, Privacy11.dp_covariance_query,
    List.all_cons, List.all_nil, Bool.and_eq_true, decide_eq_true_eq]
  norm_num

/-- C3: the scheduling call targets experiment name
"mslearn-diabetes-pipeline", which differs from the single name
"ml-sdk-pipeline" used by the submission, the REST trigger payload, the run
handle construction and the latest-run lookup. -/
theorem C3_schedule_experiment_name_inconsistent :
    Pipeline06.weekly_schedule.experiment_name = "mslearn-diabetes-pipeline" ∧
    Pipeline06.experiment_name = "ml-sdk-pipeline" ∧
    Pipeline06.weekly_schedule.experiment_name ≠ Pipeline06.experiment_name ∧
    Pipeline06.pipeline_run_submission.experiment = Pipeline06.experiment_name ∧
    (∀ endpoint token : String,
      (Pipeline06.rest_trigger endpoint token).jsonBody =
        [("ExperimentName", Pipeline06.experiment_name)]) ∧
    Pipeline06.scriptEvents[4]? =
      some (.mkRunHandle Pipeline06.experiment_name) ∧
    Pipeline06.scriptEvents[7]? =
      some (.latestRunLookup Pipeline06.experiment_name) := by
  refine ⟨rfl, rfl, by decide, rfl, fun _ _ => rfl, rfl, rfl⟩

/-- C5: the endpoint invocation is a POST to the endpoint URI carrying an
authorization header and a JSON body whose sole field is ExperimentName;
the Id field of the response is read as the new run identity, and the
script constructs a run handle from it and polls it as separate, later
operations rather than the POST blocking until the run finishes. -/
theorem C5_rest_invocation_shape :
    ∀ endpoint token : String,
      (Pipeline06.rest_trigger endpoint token).method = "POST" ∧
      (Pipeline06.rest_trigger endpoint token).uri = endpoint ∧
      (Pipeline06.rest_trigger endpoint token).headers =
        [("Authorization", "Bearer " ++ token)] ∧
      (Pipeline06.rest_trigger endpoint token).jsonBody =
        [("ExperimentName", Pipeline06.experiment_name)] ∧
      (∀ v : String, Pipeline06.run_id [("Id", v)] = some v) ∧
      Pipeline06.scriptEvents[3]? = some (.restPost Pipeline06.experiment_name) ∧
      Pipeline06.scriptEvents[4]? = some (.mkRunHandle Pipeline06.experiment_name) ∧
      Pipeline06.scriptEvents[5]? = some (.waitForCompletion Pipeline06.wait2) := by
  intro endpoint token
  exact ⟨rfl, rfl, rfl, rfl, fun v => rfl, rfl, rfl, rfl⟩

/-- C6: the privacy script fetches the dataset exactly once, as its first
data access, never mutates it, and every noised statistic and its
ground-truth counterpart (mean, histogram, covariance) read that same
handle. -/
theorem C6_same_snapshot :
    Privacy11.dataEvents.head? =
      some (.fetchDataset "diabetes dataset" 0) ∧
    (Privacy11.dataEvents.filter Privacy11.DataEvent.isFetch).length = 1 ∧
    (Privacy11.dataEvents.filter Privacy11.DataEvent.isMutate).length = 0 ∧
    (Privacy11.dataEvents.all fun e => Privacy11.DataEvent.handleOf e == 0) = true ∧
    Privacy11.DataEvent.noisedStat "mean Age" 0 ∈ Privacy11.dataEvents ∧
    Privacy11.DataEvent.trueStat "mean Age" 0 ∈ Privacy11.dataEvents ∧
    Privacy11.DataEvent.noisedStat "histogram Age" 0 ∈ Privacy11.dataEvents ∧
    Privacy11.DataEvent.trueStat "histogram Age" 0 ∈ Privacy11.dataEvents ∧
    Privacy11.DataEvent.noisedStat "covariance Age DiastolicBloodPressure" 0
      ∈ Privacy11.dataEvents ∧
    Privacy11.DataEvent.trueStat "covariance Age DiastolicBloodPressure" 0
      ∈ Privacy11.dataEvents := by
  decide

/-- C7: the recurrence descriptor built by the script is well-formed per
the declared interface: frequency "Week" from the enumeration, positive
interval 1, week_days the weekday name Monday, time_of_day "00:00" in
HH:MM form; and it is the descriptor transmitted by the scheduling call. -/
theorem C7_recurrence_well_formed :
    Pipeline06.recurrence.wellFormed = true ∧
    Pipeline06.recurrence.frequency = "Week" ∧
    Pipeline06.recurrence.interval = 1 ∧
    Pipeline06.recurrence.week_days = some ["Monday"] ∧
    Pipeline06.recurrence.time_of_day = some "00:00" ∧
    Pipeline06.weekly_schedule.recurrence = Pipeline06.recurrence := by
  decide

/-- C8: neither wait call of the script carries a local timeout, and the
unbounded polling it stands for never returns within any finite number of
polls against a run that never reaches a terminal state. -/
theorem C8_no_local_timeout :
    Pipeline06.wait1.timeout = none ∧
    Pipeline06.wait2.timeout = none ∧
    Pipeline06.Event.waitForCompletion Pipeline06.wait1 ∈ Pipeline06.scriptEvents ∧
    Pipeline06.Event.waitForCompletion Pipeline06.wait2 ∈ Pipeline06.scriptEvents ∧
    (∀ status : Nat → Pipeline06.RunStatus,
      (∀ k, (status k).isTerminal = false) →
      ∀ n, Pipeline06.pollUpTo status n = none) := by
  refine ⟨rfl, rfl, by decide, by decide, ?_⟩
  intro status h n
  unfold Pipeline06.pollUpTo
  rw [List.find?_eq_none]
  intro x _
  simp [h x]

/-- C8 witness: a stream constantly in the running state is never terminal,
and the unbounded wait has not returned after 37 polls against it. -/
theorem C8_no_local_timeout_witness :
    Pipeline06.RunStatus.isTerminal (Pipeline06.alwaysRunning 0) = false ∧
    Pipeline06.pollUpTo Pipeline06.alwaysRunning 37 = none :=
  ⟨rfl, C8_no_local_timeout.2.2.2.2 Pipeline06.alwaysRunning (fun _ => rfl) 37⟩

/-- C9: the dp_mean query declares the actual dataset length as its sample
size, while the dp_covariance query declares the hard-coded row count 10000
for both columns; for any dataset length other than 10000, no declared row
count of the covariance query equals the dataset length. -/
theorem C9_covariance_rows_hardcoded (n : Nat) (h : n ≠ 10000) :
    (Privacy11.dp_mean_query n).declaredRows = [Privacy11.samples n] ∧
    Privacy11.dp_covariance_query.declaredRows = [10000, 10000] ∧
    (∀ r ∈ Privacy11.dp_covariance_query.declaredRows, r ≠ n) := by
  refine ⟨rfl, rfl, ?_⟩
  intro r hr
  have hr10000 : r = 10000 := by
    simpa [Privacy11.dp_covariance_query] using hr
  subst hr10000
  exact fun e => h e.symm

/-- C9 witness: at dataset length 768 the mean query declares 768 rows
while both declared row counts of the covariance query are 10000 and differ
from 768. -/
theorem C9_covariance_rows_hardcoded_witness :
    (768 : Nat) ≠ 10000 ∧
    ((Privacy11.dp_mean_query 768).declaredRows = [Privacy11.samples 768] ∧
     Privacy11.dp_covariance_query.declaredRows = [10000, 10000] ∧
     (∀ r ∈ Privacy11.dp_covariance_query.declaredRows, r ≠ 768)) :=
  ⟨by decide, C9_covariance_rows_hardcoded 768 (by decide)⟩

/-- C10: reading element 0 of an empty run list yields nothing, so the
unguarded latest-run lookup needs at least one prior run; at the lookup
point the experiment "ml-sdk-pipeline" holds exactly the two runs created
by the direct submission and the REST trigger, so the access is in
bounds and succeeds. -/
theorem C10_latest_run_lookup_in_bounds :
    (([] : List Nat)[0]? = none) ∧
    Pipeline06.scriptEvents[7]? =
      some (.latestRunLookup Pipeline06.experiment_name) ∧
    (Pipeline06.runsAfter Pipeline06.eventsBeforeLookup
      Pipeline06.experiment_name).length = 2 ∧
    ((Pipeline06.runsAfter Pipeline06.eventsBeforeLookup
      Pipeline06.experiment_name)[0]?).isSome = true := by
  decide
